import Mathlib

/-!
Verification development for the rustdcr JSON-RPC client.

The definitions below are a shallow embedding of the client facade
(`src/dcrd/src/rpcclient/client.rs`) and of the connection adapter
(`src/dcrd/src/rpcclient/connection.rs`).  Machine integers (`u64`) are
modelled as `Nat` with explicit reduction modulo `2 ^ 64` where the source
wraps; fallible operations return `Except`; tokio mpsc channels are modelled
as records carrying an identity tag, a capacity, the open state of the
receiving side, and the queue of values already sent.  External library
calls (serde serialization, httparse response parsing, PEM certificate
parsing, TCP connects) are passed in as explicit arguments so that the
control flow of the repository code stays exact.
-/

namespace Rustdcr

/-- Modulus of the `u64` id counter (`AtomicU64` in the source). -/
def U64MOD : Nat := 2 ^ 64

/-- JSON values, as trees (the shape serde_json works on). -/
inductive Json where
  | null : Json
  | bool (b : Bool) : Json
  | num (n : Nat) : Json
  | str (s : String) : Json
  | arr (items : List Json) : Json
  | obj (fields : List (String × Json)) : Json

mutual

/-- Renders a JSON value to its textual byte form. -/
def Json.render : Json → String
  | .null => "null"
  | .bool b => cond b "true" "false"
  | .num n => toString n
  | .str s => "\"" ++ s ++ "\""
  | .arr xs => "[" ++ Json.renderItems xs ++ "]"
  | .obj fs => "\x7b" ++ Json.renderFields fs ++ "\x7d"

/-- Renders array items separated by commas. -/
def Json.renderItems : List Json → String
  | [] => ""
  | [x] => x.render
  | x :: y :: rest => x.render ++ "," ++ Json.renderItems (y :: rest)

/-- Renders object fields separated by commas. -/
def Json.renderFields : List (String × Json) → String
  | [] => ""
  | [(k, v)] => "\"" ++ k ++ "\":" ++ v.render
  | (k, v) :: f :: rest =>
      "\"" ++ k ++ "\":" ++ v.render ++ "," ++ Json.renderFields (f :: rest)

end

/-- Modelled from the spec: the error taxonomy of section 7 (the source file
`src/rpcclient/error.rs` is not under src/; its variants are used throughout
`client.rs` and `connection.rs`).  Error payloads carried by the Rust
variants are modelled as strings. -/
inductive RpcClientError where
  | TcpStream (e : String)
  | TlsHandshake (e : String)
  | TlsStream (e : String)
  | WsTlsCertificate (e : String)
  | RpcHandshake (e : String)
  | RpcAuthenticationRequest
  | ProxyAuthentication (e : String)
  | RpcProxyStatus (code : Option Nat)
  | RpcProxyResponseParse (e : String)
  | WebsocketAlreadyConnected
  | RpcDisconnected
  | Marshaller (e : String)
  | Unmarshaller (e : String)
  | UnregisteredNotification (method : String)
  | ServerError (code : Int) (message : String)
deriving DecidableEq, Repr

/-- Modelled from the spec: the `JsonRequest` struct of `result_types` (not
under src/), as used by `Client::marshal_command`: fields `jsonrpc`, `id`,
`method`, `params` in that order. -/
structure JsonRequest where
  jsonrpc : String
  id : Nat
  method : String
  params : List Json

/-- Modelled from the spec: serde serialization of a `JsonRequest` produces
the JSON object with the four fields in declaration order
(`Request: {"jsonrpc":"1.0","id":<u64>,"method":<string>,"params":[...]}`). -/
def jsonRequestValue (r : JsonRequest) : Json :=
  .obj [("jsonrpc", .str r.jsonrpc), ("id", .num r.id),
        ("method", .str r.method), ("params", .arr r.params)]

/-- The type of the external serde `to_vec` call: it may fail with a
serialization error (modelled as a string), otherwise yields the bytes. -/
def SerdeToVec : Type := JsonRequest → Except String String

/-- The canonical serde serializer: renders the request object. -/
def serdeToVec : SerdeToVec := fun r => .ok (jsonRequestValue r).render

/-- A reply channel endpoint (`mpsc::channel(1)` pair created per request):
identity tag, capacity and the open state of the receiving side. -/
structure MpscChan where
  tag : Nat
  capacity : Nat
  receiverOpen : Bool
deriving DecidableEq, Repr

/-- A submitted RPC invocation (`infrastructure::Command`). -/
structure Command where
  id : Nat
  rpc_message : String
  user_channel : MpscChan
deriving DecidableEq, Repr

/-- A user-command channel as seen from the sending side: identity tag,
capacity, whether the receiver half is still open, and the queue of
commands successfully sent into it. -/
structure CmdChan where
  tag : Nat
  capacity : Nat
  receiverOpen : Bool
  queue : List Command
deriving DecidableEq, Repr

/-- A channel of unit tokens (disconnect requests, acknowledgements). -/
structure UnitChan where
  tag : Nat
  capacity : Nat
  receiverOpen : Bool
  queue : List Unit
deriving DecidableEq, Repr

/-- The client facade state (`Client` in `client.rs`): the id counter, the
user-command channels, the disconnect plumbing, the notification state
table, the disconnected flag, and a channel-allocation counter standing for
the freshness of newly created mpsc channels (each `mpsc::channel` call
yields a tag equal to the counter and bumps it). -/
structure Client where
  id : Nat
  ws_user_command : CmdChan
  http_user_command : CmdChan
  disconnect_ws : UnitChan
  ws_disconnected_acknowledgement : UnitChan
  conn_is_http_mode : Bool
  notification_state : List (String × Nat)
  is_ws_disconnected : Bool
  chanAlloc : Nat
deriving DecidableEq, Repr

/-- Allocates a fresh mpsc channel of the given capacity. -/
def Client.freshChan (c : Client) (capacity : Nat) : MpscChan × Client :=
  ({ tag := c.chanAlloc, capacity := capacity, receiverOpen := true },
   { c with chanAlloc := c.chanAlloc + 1 })

/-- Embeds `Client::next_id`: `self.id.fetch_add(1, Ordering::SeqCst)`
returns the previous counter value and stores the incremented value, which
wraps at `2 ^ 64`. -/
def Client.next_id (c : Client) : Nat × Client :=
  (c.id, { c with id := (c.id + 1) % U64MOD })

/-- Embeds `Client::marshal_command`: allocates the next id, builds the
`JsonRequest { jsonrpc: "1.0", id, method, params }` and hands it to serde
`to_vec`, returning the id together with the serialization result. -/
def Client.marshal_command (c : Client) (to_vec : SerdeToVec)
    (method : String) (params : List Json) :
    (Nat × Except String String) × Client :=
  let p := c.next_id
  let request : JsonRequest :=
    { jsonrpc := "1.0", id := p.1, method := method, params := params }
  ((p.1, to_vec request), p.2)

/-- Embeds `Client::send_custom_command`: marshals the command; on marshal
failure returns `Marshaller(e)`; otherwise creates a capacity-1 reply
channel, builds the `Command`, picks the http or websocket user-command
channel according to the connection mode, and sends; a failed send (closed
receiver) yields `RpcDisconnected`, a successful one returns the id and the
reply-channel receiver. -/
def Client.send_custom_command (c : Client) (to_vec : SerdeToVec)
    (method : String) (params : List Json) :
    Except RpcClientError (Nat × MpscChan) × Client :=
  let m := c.marshal_command to_vec method params
  let id := m.1.1
  match m.1.2 with
  | .error e => (.error (.Marshaller e), m.2)
  | .ok msg =>
    let f := m.2.freshChan 1
    let channel := f.1
    let c1 := f.2
    let cmd : Command := { id := id, rpc_message := msg, user_channel := channel }
    if c1.conn_is_http_mode then
      if c1.http_user_command.receiverOpen then
        (.ok (id, channel),
         { c1 with http_user_command :=
             { c1.http_user_command with
                 queue := c1.http_user_command.queue ++ [cmd] } })
      else (.error .RpcDisconnected, c1)
    else
      if c1.ws_user_command.receiverOpen then
        (.ok (id, channel),
         { c1 with ws_user_command :=
             { c1.ws_user_command with
                 queue := c1.ws_user_command.queue ++ [cmd] } })
      else (.error .RpcDisconnected, c1)

/-- Runs `n` successive `next_id` calls, returning the ids produced in
order together with the final state. -/
def Client.runNextIds (c : Client) : Nat → List Nat × Client
  | 0 => ([], c)
  | n + 1 =>
    let p := c.next_id
    let r := p.2.runNextIds n
    (p.1 :: r.1, r.2)

/-- The outcome of the external dial (`conn.ws_split_stream()`), as seen by
`connect`: either a stream (whose identity is irrelevant here) or an error. -/
def DialResult : Type := Except RpcClientError Unit

/-- Embeds `Client::connect` (client.rs lines 268-302): when the client is
not disconnected or the connection is in HTTP POST mode it fails with
`WebsocketAlreadyConnected`; otherwise it creates fresh user-command,
disconnect and acknowledgement channels (each `mpsc::channel(1)`), installs
them, dials, returns any dial error, and on success clears the
disconnected flag. -/
def Client.connect (c : Client) (dial : DialResult) :
    Except RpcClientError Unit × Client :=
  if !c.is_ws_disconnected || c.conn_is_http_mode then
    (.error .WebsocketAlreadyConnected, c)
  else
    let c1 : Client :=
      { c with
          ws_user_command :=
            { tag := c.chanAlloc, capacity := 1, receiverOpen := true, queue := [] },
          disconnect_ws :=
            { tag := c.chanAlloc + 1, capacity := 1, receiverOpen := true, queue := [] },
          ws_disconnected_acknowledgement :=
            { tag := c.chanAlloc + 2, capacity := 1, receiverOpen := true, queue := [] },
          chanAlloc := c.chanAlloc + 3 }
    match dial with
    | .error e => (.error e, c1)
    | .ok _ => (.ok (), { c1 with is_ws_disconnected := false })

/-- Embeds `Client::disconnect` (client.rs lines 366-388): returns at once
when already disconnected; otherwise sets the disconnected flag, sends the
disconnect token to the writer driver (returning early when the receiver is
closed), then receives the acknowledgement token. -/
def Client.disconnect (c : Client) : Client :=
  if c.is_ws_disconnected then c
  else if !c.disconnect_ws.receiverOpen then { c with is_ws_disconnected := true }
  else
    match c.ws_disconnected_acknowledgement.queue with
    | [] =>
      { c with is_ws_disconnected := true,
               disconnect_ws :=
                 { c.disconnect_ws with queue := c.disconnect_ws.queue ++ [()] } }
    | _ :: rest =>
      { c with is_ws_disconnected := true,
               disconnect_ws :=
                 { c.disconnect_ws with queue := c.disconnect_ws.queue ++ [()] },
               ws_disconnected_acknowledgement :=
                 { c.ws_disconnected_acknowledgement with queue := rest } }

/-- Embeds `Client::unregister_notification_state`: clears the table. -/
def Client.unregister_notification_state (c : Client) : Client :=
  { c with notification_state := [] }

/-- Embeds `Client::is_disconnected`. -/
def Client.is_disconnected (c : Client) : Bool :=
  c.is_ws_disconnected

/-- Embeds `Client::shutdown` (client.rs lines 402-415): returns at once
when the websocket is already disconnected; otherwise clears the
notification state table and then disconnects. -/
def Client.shutdown (c : Client) : Client :=
  if c.is_ws_disconnected then c
  else c.unregister_notification_state.disconnect

/-! ## Connection adapter (`connection.rs`) -/

/-- The standard base64 alphabet used by `base64::encode`. -/
def base64Alphabet : List Char :=
  "ABCDEFGHIJKLMNOPQRSTUVWXYZabcdefghijklmnopqrstuvwxyz0123456789+/".data

/-- Looks up a 6-bit group in the base64 alphabet. -/
def b64Char (n : Nat) : Char := base64Alphabet.getD n 'A'

/-- Standard base64 encoding with padding, on byte lists, as performed by
`base64::encode`. -/
def base64Encode : List Nat → List Char
  | a :: b :: cc :: rest =>
      b64Char (a / 4) :: b64Char (a % 4 * 16 + b / 16) ::
      b64Char (b % 16 * 4 + cc / 64) :: b64Char (cc % 64) :: base64Encode rest
  | [a, b] => [b64Char (a / 4), b64Char (a % 4 * 16 + b / 16), b64Char (b % 16 * 4), '=']
  | [a] => [b64Char (a / 4), b64Char (a % 4 * 16), '=', '=']
  | [] => []

/-- UTF-8 encoding of one character (Rust `str::as_bytes` view). -/
def utf8Char (c : Char) : List Nat :=
  let n := c.toNat
  if n < 128 then [n]
  else if n < 2048 then [192 + n / 64, 128 + n % 64]
  else if n < 65536 then [224 + n / 4096, 128 + n / 64 % 64, 128 + n % 64]
  else [240 + n / 262144, 128 + n / 4096 % 64, 128 + n / 64 % 64, 128 + n % 64]

/-- UTF-8 encoding of a string as its byte list. -/
def utf8Encode (s : String) : List Nat :=
  s.data.foldr (fun c acc => utf8Char c ++ acc) []

/-- Embeds `ConnConfig` (connection.rs lines 23-72). -/
structure ConnConfig where
  host : String
  user : String
  password : String
  endpoint : String
  certificates : String
  proxy_host : Option String
  proxy_username : String
  proxy_password : String
  disable_tls : Bool
  disable_connect_on_new : Bool
  disable_auto_reconnect : Bool
  http_post_mode : Bool
deriving DecidableEq, Repr

/-- Embeds `ConnConfig::default` (connection.rs lines 74-91). -/
def ConnConfig.default : ConnConfig :=
  { host := "127.0.0.1:19109", user := "", password := "", endpoint := "ws",
    certificates := "", proxy_host := none, proxy_username := "",
    proxy_password := "", disable_tls := false, disable_connect_on_new := false,
    disable_auto_reconnect := false, http_post_mode := false }

/-- Embeds `ConnConfig::add_proxy_header` (connection.rs lines 248-272):
appends to the byte buffer the CONNECT line and Host and Proxy-Connection
headers, then the proxy-authorization header built from the RPC user and
password, then the trailing empty line. -/
def ConnConfig.add_proxy_header (cfg : ConnConfig) (buffered_header : List Nat) :
    List Nat :=
  let b1 := buffered_header ++
    utf8Encode ("CONNECT " ++ cfg.host ++ " HTTP/1.1\r\nHost: " ++ cfg.host ++
      "\r\nProxy-Connection: Keep-Alive\r\n")
  let login := cfg.user ++ ":" ++ cfg.password
  let header_string := "Basic " ++ String.mk (base64Encode (utf8Encode login))
  let b2 := b1 ++ utf8Encode ("proxy-authorization" ++ ": " ++ header_string ++ "\r\n")
  b2 ++ utf8Encode "\r\n"

/-- The outcome of one `httparse::Response::parse` call on the bytes read
so far: still incomplete, complete with an optional status code, or a parse
error. -/
inductive ParseOutcome where
  | incomplete : ParseOutcome
  | complete (code : Option Nat) : ParseOutcome
  | parseError (e : String) : ParseOutcome
deriving DecidableEq, Repr

/-- Embeds one pass of the loop body of `ConnConfig::dial_connection`
(connection.rs lines 310-329): an incomplete parse continues the loop
(`none`); a complete response with code 200 succeeds; a complete response
with any other code fails with `RpcProxyStatus(code)`; a parse error fails
with `RpcProxyResponseParse`. -/
def proxyResponseStep : ParseOutcome → Option (Except RpcClientError Unit)
  | .incomplete => none
  | .complete code =>
      if code = some 200 then .some (.ok ())
      else .some (.error (.RpcProxyStatus code))
  | .parseError e => .some (.error (.RpcProxyResponseParse e))

/-- Embeds the read-parse loop of `ConnConfig::dial_connection` over the
successive parse outcomes the growing buffer produces; `none` means the
loop is still reading. -/
def dialConnectionLoop : List ParseOutcome → Option (Except RpcClientError Unit)
  | [] => none
  | o :: rest =>
    match proxyResponseStep o with
    | some r => some r
    | none => dialConnectionLoop rest

/-- Minimum-protocol versions of `native_tls::Protocol` used here. -/
inductive TlsProtocol where
  | tlsv10 : TlsProtocol
  | tlsv12 : TlsProtocol
deriving DecidableEq, Repr

/-- The configuration accumulated by `native_tls::TlsConnector::builder()`:
trusted root certificates, minimum protocol version, and whether invalid
certificates are accepted.  Parsed certificates are modelled as the PEM
text they came from. -/
structure TlsConnectorBuilder where
  rootCertificates : List String
  minProtocolVersion : Option TlsProtocol
  acceptInvalidCerts : Bool
deriving DecidableEq, Repr

/-- Builder state right after `native_tls::TlsConnector::builder()`. -/
def tlsBuilderInit : TlsConnectorBuilder :=
  { rootCertificates := [], minProtocolVersion := some .tlsv10,
    acceptInvalidCerts := false }

/-- The stream setup `connect_stream` decides on before the handshake IO:
either a plain TCP stream or a TLS connector configuration. -/
inductive StreamSetup where
  | plain : StreamSetup
  | tls (builder : TlsConnectorBuilder) : StreamSetup
deriving DecidableEq, Repr

/-- Embeds `ConnConfig::connect_stream` (connection.rs lines 189-244) up to
the point the TLS connector is configured: a TCP connect failure yields
`TcpStream`; with TLS disabled the plain stream is returned; otherwise the
PEM certificate text is parsed (`from_pem` stands for the external
`native_tls::Certificate::from_pem`), a parse failure yields
`WsTlsCertificate`, and a parsed certificate is added as a trusted root
with minimum protocol TLS 1.2 and invalid certificates accepted. -/
def ConnConfig.connect_stream (cfg : ConnConfig)
    (tcp : Except String Unit) (from_pem : String → Except String String) :
    Except RpcClientError StreamSetup :=
  match tcp with
  | .error e => .error (.TcpStream e)
  | .ok _ =>
    if cfg.disable_tls then .ok .plain
    else
      match from_pem cfg.certificates with
      | .ok certificate =>
        .ok (.tls
          { tlsBuilderInit with
              rootCertificates := tlsBuilderInit.rootCertificates ++ [certificate],
              minProtocolVersion := some .tlsv12,
              acceptInvalidCerts := true })
      | .error e => .error (.WsTlsCertificate e)

/-! ## Sample states used to instantiate hypotheses -/

/-- A concrete client in the state `new()` leaves it in websocket mode:
counter at 1, buffer-50 user-command channels, connected. -/
def sampleClient : Client :=
  { id := 1,
    ws_user_command := { tag := 0, capacity := 50, receiverOpen := true, queue := [] },
    http_user_command := { tag := 1, capacity := 50, receiverOpen := true, queue := [] },
    disconnect_ws := { tag := 2, capacity := 1, receiverOpen := true, queue := [] },
    ws_disconnected_acknowledgement :=
      { tag := 3, capacity := 1, receiverOpen := true, queue := [] },
    conn_is_http_mode := false,
    notification_state := [],
    is_ws_disconnected := false,
    chanAlloc := 4 }

/-! ## Theorems -/

/-- Closed form of the ids produced by successive `next_id` calls. -/
theorem runNextIds_closed_form (n : Nat) :
    ∀ c : Client, c.id < U64MOD →
      (c.runNextIds n).1 = (List.range n).map (fun k => (c.id + k) % U64MOD) := by
  induction n with
  | zero => intro c h; simp [Client.runNextIds]
  | succ n ih =>
    intro c h
    have hM : 0 < U64MOD := by decide
    have h1 : (c.id + 1) % U64MOD < U64MOD := Nat.mod_lt _ hM
    have heq := ih { c with id := (c.id + 1) % U64MOD } h1
    simp only [Client.runNextIds, Client.next_id]
    rw [heq, List.range_succ_eq_map, List.map_cons, List.map_map]
    refine congrArg₂ List.cons ?_ ?_
    · exact (Nat.mod_eq_of_lt h).symm
    · refine List.map_congr_left fun k _ => ?_
      show ((c.id + 1) % U64MOD + k) % U64MOD = (c.id + (k + 1)) % U64MOD
      rw [Nat.mod_add_mod]
      exact congrArg (· % U64MOD) (by omega)

/-- C1: `next_id` is a fetch-and-add on the client counter: each call
returns the previous counter value and stores the successor reduced modulo
`2 ^ 64` (wrap only on u64 overflow); the id a successful
`send_custom_command` returns is exactly the counter value it was called
at; over any finite sequence of at most `2 ^ 64` calls the produced ids are
pairwise distinct; and as long as no wrap occurs successive ids strictly
increase. -/
theorem claim1_next_id_monotonic_ids_distinct (c : Client) (n : Nat)
    (h : c.id < U64MOD) (hn : n ≤ U64MOD) :
    (c.next_id).1 = c.id ∧
    (c.next_id).2.id = (c.id + 1) % U64MOD ∧
    (∀ to_vec method params r,
        (c.send_custom_command to_vec method params).1 = .ok r → r.1 = c.id) ∧
    List.Pairwise (· ≠ ·) (c.runNextIds n).1 ∧
    (∀ k, k + 1 < n → c.id + (k + 1) < U64MOD →
        (c.runNextIds n).1.getD k 0 < (c.runNextIds n).1.getD (k + 1) 0) := by
  have hform := runNextIds_closed_form n c h
  refine ⟨rfl, rfl, ?_, ?_, ?_⟩
  · intro to_vec method params r hr
    simp only [Client.send_custom_command, Client.marshal_command, Client.next_id,
      Client.freshChan] at hr
    split at hr
    · exact absurd hr (by simp)
    · split at hr <;> split at hr <;> simp_all <;> exact (congrArg Prod.fst hr).symm
  · rw [hform]
    refine List.Nodup.map_on ?_ (List.nodup_range n)
    intro x hx y hy hxy
    have hx' : x < U64MOD := lt_of_lt_of_le (List.mem_range.mp hx) hn
    have hy' : y < U64MOD := lt_of_lt_of_le (List.mem_range.mp hy) hn
    have hmod : x ≡ y [MOD U64MOD] := Nat.ModEq.add_left_cancel' c.id hxy
    calc x = x % U64MOD := (Nat.mod_eq_of_lt hx').symm
    _ = y % U64MOD := hmod
    _ = y := Nat.mod_eq_of_lt hy'
  · intro k hk hlt
    rw [hform]
    have hlen : ((List.range n).map (fun k => (c.id + k) % U64MOD)).length = n := by
      simp
    have e1 : ((List.range n).map (fun k => (c.id + k) % U64MOD)).getD k 0
        = (c.id + k) % U64MOD := by
      rw [List.getD_eq_getElem _ _ (by omega : k < _)]
      simp
    have e2 : ((List.range n).map (fun k => (c.id + k) % U64MOD)).getD (k + 1) 0
        = (c.id + (k + 1)) % U64MOD := by
      rw [List.getD_eq_getElem _ _ (by omega : k + 1 < _)]
      simp
    rw [e1, e2, Nat.mod_eq_of_lt (by omega), Nat.mod_eq_of_lt hlt]
    omega

/-- C1 witness: the theorem instantiated at the sample client and three
calls. -/
theorem claim1_witness :
    (sampleClient.next_id).1 = sampleClient.id ∧
    (sampleClient.next_id).2.id = (sampleClient.id + 1) % U64MOD ∧
    (∀ to_vec method params r,
        (sampleClient.send_custom_command to_vec method params).1 = .ok r →
          r.1 = sampleClient.id) ∧
    List.Pairwise (· ≠ ·) (sampleClient.runNextIds 3).1 ∧
    (∀ k, k + 1 < 3 → sampleClient.id + (k + 1) < U64MOD →
        (sampleClient.runNextIds 3).1.getD k 0
          < (sampleClient.runNextIds 3).1.getD (k + 1) 0) :=
  claim1_next_id_monotonic_ids_distinct sampleClient 3 (by decide) (by decide)

/-- C2: `marshal_command` with the serde serializer produces the freshly
allocated id together with the rendered JSON object whose fields are
`jsonrpc = "1.0"`, the numeric id, the method and the params array, in that
order, bumping the counter; and whenever the serializer fails with `e`,
`send_custom_command` returns `Marshaller e` and leaves both user-command
channels and the channel allocator untouched (nothing is sent to the
transport). -/
theorem claim2_marshal_command_fields (c : Client) (method : String)
    (params : List Json) :
    c.marshal_command serdeToVec method params =
      ((c.id, .ok (Json.obj [("jsonrpc", .str "1.0"), ("id", .num c.id),
          ("method", .str method), ("params", .arr params)]).render),
       { c with id := (c.id + 1) % U64MOD }) ∧
    (∀ to_vec : SerdeToVec, ∀ e : String,
      to_vec { jsonrpc := "1.0", id := c.id, method := method, params := params }
          = .error e →
        (c.send_custom_command to_vec method params).1 = .error (.Marshaller e) ∧
        (c.send_custom_command to_vec method params).2.ws_user_command
            = c.ws_user_command ∧
        (c.send_custom_command to_vec method params).2.http_user_command
            = c.http_user_command ∧
        (c.send_custom_command to_vec method params).2.chanAlloc = c.chanAlloc) := by
  constructor
  · rfl
  · intro to_vec e he
    simp [Client.send_custom_command, Client.marshal_command, Client.next_id, he]

/-- C2 witness: the theorem instantiated at the sample client with method
`getblockcount`, no parameters, and a failing serializer. -/
theorem claim2_witness :
    sampleClient.marshal_command serdeToVec "getblockcount" [] =
      ((sampleClient.id, .ok (Json.obj [("jsonrpc", .str "1.0"),
          ("id", .num sampleClient.id), ("method", .str "getblockcount"),
          ("params", .arr [])]).render),
       { sampleClient with id := (sampleClient.id + 1) % U64MOD }) ∧
    (sampleClient.send_custom_command (fun _ => .error "boom") "getblockcount" []).1
        = .error (.Marshaller "boom") ∧
    (sampleClient.send_custom_command (fun _ => .error "boom") "getblockcount" []).2.chanAlloc
        = sampleClient.chanAlloc :=
  ⟨(claim2_marshal_command_fields sampleClient "getblockcount" []).1,
   ((claim2_marshal_command_fields sampleClient "getblockcount" []).2
      (fun _ => .error "boom") "boom" rfl).1,
   ((claim2_marshal_command_fields sampleClient "getblockcount" []).2
      (fun _ => .error "boom") "boom" rfl).2.2.2⟩

/-- The user-command channel `send_custom_command` sends on, as picked by
the connection mode (client.rs lines 330-334). -/
def Client.server_channel (c : Client) : CmdChan :=
  if c.conn_is_http_mode then c.http_user_command else c.ws_user_command

/-- C3: when marshalling succeeds with bytes `msg`, `send_custom_command`
on a closed user-command channel returns `RpcDisconnected`, and on an open
one returns the allocated id together with a fresh capacity-one reply
channel, appending to the channel the `Command` that carries that id, the
bytes and the reply channel. -/
theorem claim3_send_custom_command_channel (c : Client) (to_vec : SerdeToVec)
    (method : String) (params : List Json) (msg : String)
    (hok : to_vec { jsonrpc := "1.0", id := c.id, method := method, params := params }
        = .ok msg) :
    (c.server_channel.receiverOpen = false →
      (c.send_custom_command to_vec method params).1 = .error .RpcDisconnected) ∧
    (c.server_channel.receiverOpen = true →
      (c.send_custom_command to_vec method params).1 =
        .ok (c.id, { tag := c.chanAlloc, capacity := 1, receiverOpen := true }) ∧
      (c.send_custom_command to_vec method params).2.server_channel.queue =
        c.server_channel.queue ++
          [{ id := c.id, rpc_message := msg,
             user_channel :=
               { tag := c.chanAlloc, capacity := 1, receiverOpen := true } }]) := by
  refine ⟨fun hclosed => ?_, fun hopen => ?_⟩
  · by_cases hm : c.conn_is_http_mode <;>
      simp [Client.server_channel, hm] at hclosed <;>
      simp [Client.send_custom_command, Client.marshal_command, Client.next_id,
        Client.freshChan, hok, hm, hclosed]
  · by_cases hm : c.conn_is_http_mode <;>
      simp [Client.server_channel, hm] at hopen <;>
      simp [Client.send_custom_command, Client.marshal_command, Client.next_id,
        Client.freshChan, Client.server_channel, hok, hm, hopen]

/-- C3 witness: the theorem applied at the sample client (open channel) and
at the sample client with the websocket receiver closed. -/
theorem claim3_witness :
    (sampleClient.send_custom_command serdeToVec "getblockcount" []).1 =
      .ok (sampleClient.id,
        { tag := sampleClient.chanAlloc, capacity := 1, receiverOpen := true }) ∧
    (({ sampleClient with
          ws_user_command :=
            { sampleClient.ws_user_command with receiverOpen := false }
        } : Client).send_custom_command serdeToVec "getblockcount" []).1 =
      .error .RpcDisconnected :=
  ⟨((claim3_send_custom_command_channel sampleClient serdeToVec "getblockcount" []
      (Json.obj [("jsonrpc", .str "1.0"), ("id", .num 1),
        ("method", .str "getblockcount"), ("params", .arr [])]).render rfl).2
      rfl).1,
   (claim3_send_custom_command_channel
      { sampleClient with
          ws_user_command :=
            { sampleClient.ws_user_command with receiverOpen := false } }
      serdeToVec "getblockcount" []
      (Json.obj [("jsonrpc", .str "1.0"), ("id", .num 1),
        ("method", .str "getblockcount"), ("params", .arr [])]).render rfl).1 rfl⟩

/-- C4: `connect` fails with `WebsocketAlreadyConnected` whenever the
client is already connected, leaving the state untouched; when the client
is disconnected and in websocket mode it installs three freshly allocated
channels (user-command, disconnect, acknowledgement, with tags the old
channels cannot carry), returns any dial error to the caller, and on a
successful dial clears the disconnected flag. -/
theorem claim4_connect_fresh_channels_or_already_connected (c : Client)
    (dial : DialResult) :
    (c.is_ws_disconnected = false →
      (c.connect dial).1 = .error .WebsocketAlreadyConnected ∧
      (c.connect dial).2 = c) ∧
    (c.is_ws_disconnected = true → c.conn_is_http_mode = false →
      ((c.connect dial).2.ws_user_command.tag = c.chanAlloc ∧
       (c.connect dial).2.disconnect_ws.tag = c.chanAlloc + 1 ∧
       (c.connect dial).2.ws_disconnected_acknowledgement.tag = c.chanAlloc + 2 ∧
       (c.connect dial).2.chanAlloc = c.chanAlloc + 3) ∧
      (c.ws_user_command.tag < c.chanAlloc →
        (c.connect dial).2.ws_user_command.tag ≠ c.ws_user_command.tag) ∧
      (c.disconnect_ws.tag < c.chanAlloc →
        (c.connect dial).2.disconnect_ws.tag ≠ c.disconnect_ws.tag) ∧
      (c.ws_disconnected_acknowledgement.tag < c.chanAlloc →
        (c.connect dial).2.ws_disconnected_acknowledgement.tag
          ≠ c.ws_disconnected_acknowledgement.tag) ∧
      (∀ e, dial = .error e → (c.connect dial).1 = .error e) ∧
      (dial = .ok () →
        (c.connect dial).1 = .ok () ∧
        (c.connect dial).2.is_ws_disconnected = false)) := by
  refine ⟨fun h => ?_, fun h hm => ?_⟩
  · simp [Client.connect, h]
  · cases dial with
    | error e =>
      refine ⟨by simp [Client.connect, h, hm], ?_, ?_, ?_, ?_, ?_⟩
      · intro hlt; simp [Client.connect, h, hm]; omega
      · intro hlt; simp [Client.connect, h, hm]; omega
      · intro hlt; simp [Client.connect, h, hm]; omega
      · intro e' he'
        injection he' with hh
        subst hh
        simp [Client.connect, h, hm]
      · intro hok; exact absurd hok (by simp)
    | ok u =>
      cases u
      refine ⟨by simp [Client.connect, h, hm], ?_, ?_, ?_, ?_, ?_⟩
      · intro hlt; simp [Client.connect, h, hm]; omega
      · intro hlt; simp [Client.connect, h, hm]; omega
      · intro hlt; simp [Client.connect, h, hm]; omega
      · intro e' he'; exact absurd he' (by simp)
      · intro _
        exact ⟨by simp [Client.connect, h, hm], by simp [Client.connect, h, hm]⟩

/-- C4 witness: the theorem applied at a disconnected websocket client with
a failing dial, and at the connected sample client. -/
theorem claim4_witness :
    ((({ sampleClient with is_ws_disconnected := true } : Client).connect
        (.error (.TcpStream "refused"))).1 = .error (.TcpStream "refused")) ∧
    (sampleClient.connect (.ok ())).1 = .error .WebsocketAlreadyConnected :=
  ⟨((claim4_connect_fresh_channels_or_already_connected
      { sampleClient with is_ws_disconnected := true }
      (.error (.TcpStream "refused"))).2 rfl rfl).2.2.2.2.1
      (.TcpStream "refused") rfl,
   ((claim4_connect_fresh_channels_or_already_connected sampleClient (.ok ())).1
      rfl).1⟩

/-- C5: `disconnect` is idempotent: a second call observes the disconnected
flag already set and changes nothing (in particular it sends no further
disconnect token), and after any `disconnect` call the client reads as
disconnected. -/
theorem claim5_disconnect_idempotent (c : Client) :
    c.disconnect.disconnect = c.disconnect ∧
    c.disconnect.is_ws_disconnected = true ∧
    c.disconnect.disconnect.disconnect_ws.queue
      = c.disconnect.disconnect_ws.queue := by
  have hid : ∀ d : Client, d.is_ws_disconnected = true → d.disconnect = d := by
    intro d hd
    simp [Client.disconnect, hd]
  have hflag : ∀ d : Client, d.disconnect.is_ws_disconnected = true := by
    intro d
    unfold Client.disconnect
    split_ifs with h1 h2
    · exact h1
    · rfl
    · split <;> rfl
  exact ⟨hid _ (hflag c), hflag c, by rw [hid _ (hflag c)]⟩

/-- Disconnect never touches the notification state table. -/
theorem disconnect_preserves_notification_state (c : Client) :
    c.disconnect.notification_state = c.notification_state := by
  unfold Client.disconnect
  split_ifs with h1 h2
  · rfl
  · rfl
  · split <;> rfl

/-- A sample client that is already disconnected while one notification
registration is recorded in the table. -/
def sampleDisconnectedClient : Client :=
  { sampleClient with
      is_ws_disconnected := true,
      notification_state := [("notifyblocks", 5)] }

/-- C6 counterexample: on a client that is already disconnected,
`shutdown` early-returns without clearing the notification state table, so
the table is not empty after `shutdown` returns. -/
theorem claim6_counterexample_shutdown_skips_clear :
    sampleDisconnectedClient.shutdown.notification_state
        = [("notifyblocks", 5)] ∧
    sampleDisconnectedClient.shutdown.notification_state ≠ [] := by
  constructor
  · rfl
  · intro h
    simp [Client.shutdown, sampleDisconnectedClient, sampleClient] at h

/-- C6 amended: when `shutdown` is called on a client that is not already
disconnected, it clears the notification state table and then performs
`disconnect`, so the table is empty after it returns; on an already
disconnected client it returns with the state untouched. -/
theorem claim6_shutdown_clears_table_when_connected (c : Client)
    (h : c.is_ws_disconnected = false) :
    c.shutdown = c.unregister_notification_state.disconnect ∧
    c.shutdown.notification_state = [] ∧
    (∀ d : Client, d.is_ws_disconnected = true → d.shutdown = d) := by
  refine ⟨by simp [Client.shutdown, h], ?_, fun d hd => by simp [Client.shutdown, hd]⟩
  have : c.shutdown = c.unregister_notification_state.disconnect := by
    simp [Client.shutdown, h]
  rw [this, disconnect_preserves_notification_state]
  rfl

/-- C6 witness: the amended theorem applied at the connected sample
client. -/
theorem claim6_witness :
    sampleClient.shutdown
        = sampleClient.unregister_notification_state.disconnect ∧
    sampleClient.shutdown.notification_state = [] ∧
    (∀ d : Client, d.is_ws_disconnected = true → d.shutdown = d) :=
  claim6_shutdown_clears_table_when_connected sampleClient rfl

/-- C10: in HTTP POST mode `connect` always fails with
`WebsocketAlreadyConnected`, whatever the dial would have produced and
whatever the disconnected flag says. -/
theorem claim10_connect_http_mode_always_errors (c : Client) (dial : DialResult)
    (h : c.conn_is_http_mode = true) :
    (c.connect dial).1 = .error .WebsocketAlreadyConnected := by
  simp [Client.connect, h]

/-- A sample client configured for HTTP POST mode that never had a
websocket connection (the disconnected flag is set). -/
def sampleHttpClient : Client :=
  { sampleClient with conn_is_http_mode := true, is_ws_disconnected := true }

/-- C10 witness: the theorem applied at the HTTP-mode sample client, whose
disconnected flag is true. -/
theorem claim10_witness :
    (sampleHttpClient.connect (.ok ())).1 = .error .WebsocketAlreadyConnected :=
  claim10_connect_http_mode_always_errors sampleHttpClient (.ok ()) rfl

/-- Folding a byte expansion with a nonempty initial accumulator appends
the accumulator after the expansion of the list. -/
theorem foldr_bytes_init (u : Char → List Nat) (l : List Char) (init : List Nat) :
    List.foldr (fun c acc => u c ++ acc) init l
      = List.foldr (fun c acc => u c ++ acc) [] l ++ init := by
  induction l with
  | nil => simp
  | cons c t ih => simp [ih]

/-- UTF-8 encoding distributes over string concatenation. -/
theorem utf8Encode_append (a b : String) :
    utf8Encode (a ++ b) = utf8Encode a ++ utf8Encode b := by
  unfold utf8Encode
  rw [String.data_append, List.foldr_append, foldr_bytes_init]

/-- The proxy header bytes, rewritten as the UTF-8 encoding of the single
HTTP/1.1 CONNECT request text: request line for the host, `Host` and
`Proxy-Connection: Keep-Alive` headers, a `proxy-authorization` header with
value `Basic` plus the base64 credential, and the empty line terminator. -/
theorem proxy_header_bytes_shape (host b64txt : String) :
    utf8Encode ("CONNECT " ++ host ++ " HTTP/1.1\r\nHost: " ++ host ++
        "\r\nProxy-Connection: Keep-Alive\r\n")
      ++ utf8Encode ("proxy-authorization" ++ ": " ++ ("Basic " ++ b64txt) ++ "\r\n")
      ++ utf8Encode "\r\n"
    = utf8Encode ("CONNECT " ++ host ++ " HTTP/1.1\r\n" ++ "Host: " ++ host ++
        "\r\n" ++ "Proxy-Connection: Keep-Alive\r\n" ++
        "proxy-authorization: Basic " ++ b64txt ++ "\r\n" ++ "\r\n") := by
  have e1 : utf8Encode "CONNECT " = [67, 79, 78, 78, 69, 67, 84, 32] := by decide
  have e2 : utf8Encode " HTTP/1.1\r\nHost: "
      = [32, 72, 84, 84, 80, 47, 49, 46, 49, 13, 10, 72, 111, 115, 116, 58, 32] := by
    decide
  have e3 : utf8Encode " HTTP/1.1\r\n"
      = [32, 72, 84, 84, 80, 47, 49, 46, 49, 13, 10] := by decide
  have e4 : utf8Encode "Host: " = [72, 111, 115, 116, 58, 32] := by decide
  have e5 : utf8Encode "\r\nProxy-Connection: Keep-Alive\r\n"
      = [13, 10, 80, 114, 111, 120, 121, 45, 67, 111, 110, 110, 101, 99, 116,
         105, 111, 110, 58, 32, 75, 101, 101, 112, 45, 65, 108, 105, 118, 101,
         13, 10] := by decide
  have e6 : utf8Encode "\r\n" = [13, 10] := by decide
  have e7 : utf8Encode "Proxy-Connection: Keep-Alive\r\n"
      = [80, 114, 111, 120, 121, 45, 67, 111, 110, 110, 101, 99, 116, 105, 111,
         110, 58, 32, 75, 101, 101, 112, 45, 65, 108, 105, 118, 101, 13, 10] := by
    decide
  have e8 : utf8Encode "proxy-authorization"
      = [112, 114, 111, 120, 121, 45, 97, 117, 116, 104, 111, 114, 105, 122, 97,
         116, 105, 111, 110] := by decide
  have e9 : utf8Encode ": " = [58, 32] := by decide
  have e10 : utf8Encode "Basic " = [66, 97, 115, 105, 99, 32] := by decide
  have e11 : utf8Encode "proxy-authorization: Basic "
      = [112, 114, 111, 120, 121, 45, 97, 117, 116, 104, 111, 114, 105, 122, 97,
         116, 105, 111, 110, 58, 32, 66, 97, 115, 105, 99, 32] := by decide
  simp only [utf8Encode_append, e1, e2, e3, e4, e5, e6, e7, e8, e9, e10, e11,
    List.append_assoc, List.cons_append, List.nil_append]

/-- C7: with a proxy host configured, the bytes `add_proxy_header` buffers
for the proxy are exactly the HTTP/1.1 CONNECT request for the target host
with headers `Host: <target>` and `Proxy-Connection: Keep-Alive`, a
`proxy-authorization` header whose value is `Basic` followed by the base64
encoding of `user:password` built from the RPC `user` and `password`
config fields, and a terminating empty line; the header does not depend on
the `proxy_username` and `proxy_password` fields. -/
theorem claim7_proxy_header_uses_rpc_credentials (cfg : ConnConfig) (p : String)
    (hp : cfg.proxy_host = some p) :
    cfg.add_proxy_header [] =
      utf8Encode ("CONNECT " ++ cfg.host ++ " HTTP/1.1\r\n" ++ "Host: " ++
        cfg.host ++ "\r\n" ++ "Proxy-Connection: Keep-Alive\r\n" ++
        "proxy-authorization: Basic " ++
        String.mk (base64Encode (utf8Encode (cfg.user ++ ":" ++ cfg.password))) ++
        "\r\n" ++ "\r\n") ∧
    (∀ pu pp, ({ cfg with proxy_username := pu, proxy_password := pp } :
        ConnConfig).add_proxy_header [] = cfg.add_proxy_header []) := by
  constructor
  · show utf8Encode _ ++ utf8Encode _ ++ utf8Encode _ = _
    exact proxy_header_bytes_shape cfg.host
      (String.mk (base64Encode (utf8Encode (cfg.user ++ ":" ++ cfg.password))))
  · intro pu pp
    rfl

/-- A concrete configuration with a proxy host set. -/
def sampleProxyConfig : ConnConfig :=
  { ConnConfig.default with
      host := "h:1", user := "u", password := "p",
      proxy_host := some "proxy:8080",
      proxy_username := "pu", proxy_password := "pp" }

/-- C7 witness: the theorem applied at the sample proxy configuration. -/
theorem claim7_witness :
    sampleProxyConfig.add_proxy_header [] =
      utf8Encode ("CONNECT " ++ sampleProxyConfig.host ++ " HTTP/1.1\r\n" ++
        "Host: " ++ sampleProxyConfig.host ++ "\r\n" ++
        "Proxy-Connection: Keep-Alive\r\n" ++ "proxy-authorization: Basic " ++
        String.mk (base64Encode (utf8Encode (sampleProxyConfig.user ++ ":" ++
          sampleProxyConfig.password))) ++ "\r\n" ++ "\r\n") ∧
    (∀ pu pp, ({ sampleProxyConfig with proxy_username := pu, proxy_password := pp } :
        ConnConfig).add_proxy_header []
          = sampleProxyConfig.add_proxy_header []) :=
  claim7_proxy_header_uses_rpc_credentials sampleProxyConfig "proxy:8080" rfl

/-- C8: in the proxy response loop, after any number of incomplete parses a
completely parsed response with status 200 lets the dial continue; a
completely parsed response with any other status code fails the dial with
`RpcProxyStatus(code)`; a parse error fails it with
`RpcProxyResponseParse`; and the loop reports success only when the
deciding outcome was a complete response with status 200. -/
theorem claim8_proxy_status_decision :
    (∀ ps : List ParseOutcome, (∀ x ∈ ps, x = .incomplete) →
      dialConnectionLoop (ps ++ [.complete (some 200)]) = some (.ok ())) ∧
    (∀ (ps : List ParseOutcome) (code : Option Nat) (rest : List ParseOutcome),
      (∀ x ∈ ps, x = .incomplete) → code ≠ some 200 →
      dialConnectionLoop (ps ++ .complete code :: rest)
        = some (.error (.RpcProxyStatus code))) ∧
    (∀ (ps : List ParseOutcome) (e : String) (rest : List ParseOutcome),
      (∀ x ∈ ps, x = .incomplete) →
      dialConnectionLoop (ps ++ .parseError e :: rest)
        = some (.error (.RpcProxyResponseParse e))) ∧
    (∀ os : List ParseOutcome, dialConnectionLoop os = some (.ok ()) →
      ∃ ps rest, os = ps ++ .complete (some 200) :: rest ∧
        ∀ x ∈ ps, x = .incomplete) := by
  refine ⟨?_, ?_, ?_, ?_⟩
  · intro ps hps
    induction ps with
    | nil => simp [dialConnectionLoop, proxyResponseStep]
    | cons o t ih =>
      have ho : o = .incomplete := hps o (by simp)
      subst ho
      simpa [dialConnectionLoop, proxyResponseStep]
        using ih (fun x hx => hps x (by simp [hx]))
  · intro ps code rest hps hcode
    induction ps with
    | nil => simp [dialConnectionLoop, proxyResponseStep, hcode]
    | cons o t ih =>
      have ho : o = .incomplete := hps o (by simp)
      subst ho
      simpa [dialConnectionLoop, proxyResponseStep]
        using ih (fun x hx => hps x (by simp [hx]))
  · intro ps e rest hps
    induction ps with
    | nil => simp [dialConnectionLoop, proxyResponseStep]
    | cons o t ih =>
      have ho : o = .incomplete := hps o (by simp)
      subst ho
      simpa [dialConnectionLoop, proxyResponseStep]
        using ih (fun x hx => hps x (by simp [hx]))
  · intro os hos
    induction os with
    | nil => simp [dialConnectionLoop] at hos
    | cons o t ih =>
      cases o with
      | incomplete =>
        obtain ⟨ps, rest, hsplit, hincomplete⟩ :=
          ih (by simpa [dialConnectionLoop, proxyResponseStep] using hos)
        exact ⟨.incomplete :: ps, rest, by simp [hsplit],
          fun x hx => by
            rcases List.mem_cons.mp hx with h | h
            · exact h
            · exact hincomplete x h⟩
      | complete code =>
        by_cases hc : code = some 200
        · exact ⟨[], t, by simp [hc], by simp⟩
        · exfalso
          simp [dialConnectionLoop, proxyResponseStep, hc] at hos
      | parseError e =>
        exfalso
        simp [dialConnectionLoop, proxyResponseStep] at hos

/-- C8 witness: the conjuncts applied at concrete outcome lists: a 200
after one incomplete parse, a 407 response, and a parse failure. -/
theorem claim8_witness :
    dialConnectionLoop [.incomplete, .complete (some 200)] = some (.ok ()) ∧
    dialConnectionLoop [.complete (some 407)]
      = some (.error (.RpcProxyStatus (some 407))) ∧
    dialConnectionLoop [.parseError "bad header"]
      = some (.error (.RpcProxyResponseParse "bad header")) ∧
    (∃ ps rest, ([.incomplete, .complete (some 200)] : List ParseOutcome)
        = ps ++ .complete (some 200) :: rest ∧ ∀ x ∈ ps, x = .incomplete) :=
  ⟨claim8_proxy_status_decision.1 [.incomplete] (by simp),
   claim8_proxy_status_decision.2.1 [] (some 407) [] (by simp) (by simp),
   claim8_proxy_status_decision.2.2.1 [] "bad header" [] (by simp),
   claim8_proxy_status_decision.2.2.2 [.incomplete, .complete (some 200)]
     (claim8_proxy_status_decision.1 [.incomplete] (by simp))⟩

/-- C9: with TLS enabled and the TCP connect succeeded, `connect_stream`
configures the TLS connector with the parsed PEM certificate chain as its
only added trust root, minimum protocol version TLS 1.2, and invalid
certificates accepted; and when the PEM text fails to parse the dial fails
with `WsTlsCertificate`. -/
theorem claim9_tls_connector_configuration (cfg : ConnConfig)
    (from_pem : String → Except String String)
    (h : cfg.disable_tls = false) :
    (∀ certificate, from_pem cfg.certificates = .ok certificate →
      cfg.connect_stream (.ok ()) from_pem =
        .ok (.tls { rootCertificates := [certificate],
                    minProtocolVersion := some .tlsv12,
                    acceptInvalidCerts := true })) ∧
    (∀ e, from_pem cfg.certificates = .error e →
      cfg.connect_stream (.ok ()) from_pem = .error (.WsTlsCertificate e)) := by
  constructor
  · intro certificate hc
    simp [ConnConfig.connect_stream, h, hc, tlsBuilderInit]
  · intro e he
    simp [ConnConfig.connect_stream, h, he]

/-- C9 witness: the theorem applied at the default configuration with a
succeeding and with a failing PEM parser. -/
theorem claim9_witness :
    ConnConfig.default.connect_stream (.ok ()) (fun s => .ok s) =
      .ok (.tls { rootCertificates := [ConnConfig.default.certificates],
                  minProtocolVersion := some .tlsv12,
                  acceptInvalidCerts := true }) ∧
    ConnConfig.default.connect_stream (.ok ()) (fun _ => .error "bad pem") =
      .error (.WsTlsCertificate "bad pem") :=
  ⟨(claim9_tls_connector_configuration ConnConfig.default (fun s => .ok s) rfl).1
      ConnConfig.default.certificates rfl,
   (claim9_tls_connector_configuration ConnConfig.default (fun _ => .error "bad pem")
      rfl).2 "bad pem" rfl⟩

end Rustdcr
